import Mathlib

/-!
Shallow embedding of `src/src/USB_18v7.c`, the protocol codec and command
layer for a Pololu Simple Motor Controller spoken over a duplex byte
channel.  The POSIX calls `write` and `read` are modelled by a channel
record that scripts their return values; every command function returns
both its C return value (an `Int`) and the trace of channel operations it
performed, in order.
-/

/-- The sentinel `#define SERIAL_ERROR -9999` from the source. -/
def SERIAL_ERROR : Int := -9999

/-- One channel operation performed by a command function: a `write` of the
given bytes, or a `read` requesting the given number of bytes. -/
inductive Op : Type where
  | write : List Nat → Op
  | read : Nat → Op
  deriving DecidableEq

/-- A duplex byte channel, modelling the file descriptor.  `writeRet bytes`
is the value returned by the POSIX `write` call for that byte sequence
(`-1` on error, otherwise the number of bytes written).  `readRet n` is the
value returned by the POSIX `read` call for a request of `n` bytes together
with the bytes it deposited in the buffer. -/
structure Chan where
  writeRet : List Nat → Int
  readRet : Nat → Int × List Nat

/-- Embedding of `smcGetVariable`: build the command `{0xA1, variableId}`,
write it, return `SERIAL_ERROR` if `write` returned `-1`; otherwise read 2
bytes, return `SERIAL_ERROR` if `read` did not return 2; otherwise return
`response[0] + 256 * response[1]`.  The second component is the trace of
channel operations performed. -/
def smcGetVariable (ch : Chan) (variableId : Nat) : Int × List Op :=
  let command : List Nat := [0xA1, variableId]
  if ch.writeRet command = -1 then
    (SERIAL_ERROR, [Op.write command])
  else
    let r := ch.readRet 2
    if r.1 ≠ 2 then
      (SERIAL_ERROR, [Op.write command, Op.read 2])
    else
      (((r.2.getD 0 0 : Nat) : Int) + 256 * ((r.2.getD 1 0 : Nat) : Int),
       [Op.write command, Op.read 2])

/-- The C cast `(signed short)val` applied to a nonnegative `int`:
two's-complement wrap-around into the range `-32768..32767`. -/
def toSigned16 (v : Int) : Int :=
  if v % 65536 < 32768 then v % 65536 else v % 65536 - 65536

/-- Embedding of `smcGetTargetSpeed`: call `smcGetVariable` with id 20 and
return `val == SERIAL_ERROR ? SERIAL_ERROR : (signed short)val`. -/
def smcGetTargetSpeed (ch : Chan) : Int × List Op :=
  let v := smcGetVariable ch 20
  (if v.1 = SERIAL_ERROR then SERIAL_ERROR else toSigned16 v.1, v.2)

/-- Embedding of `smcGetErrorStatus`: `return smcGetVariable(fd, 0)`. -/
def smcGetErrorStatus (ch : Chan) : Int × List Op :=
  smcGetVariable ch 0

/-- Embedding of `smcExitSafeStart`: write the single byte `0x83`, return
`SERIAL_ERROR` if `write` returned `-1`, else `0`. -/
def smcExitSafeStart (ch : Chan) : Int × List Op :=
  let command : List Nat := [0x83]
  if ch.writeRet command = -1 then
    (SERIAL_ERROR, [Op.write command])
  else
    (0, [Op.write command])

/-- Embedding of `smcSetTargetSpeed`: direction byte `0x86` and
`speed = -speed` when `speed < 0`, else `0x85`; then
`command[1] = speed & 0x1F` and `command[2] = speed >> 5 & 0x7F`; write the
3 bytes, return `SERIAL_ERROR` if `write` returned `-1`, else `0`. -/
def smcSetTargetSpeed (ch : Chan) (speed : Int) : Int × List Op :=
  let dm : Nat × Nat :=
    if speed < 0 then (0x86, (-speed).toNat) else (0x85, speed.toNat)
  let command : List Nat := [dm.1, dm.2 &&& 0x1F, dm.2 >>> 5 &&& 0x7F]
  if ch.writeRet command = -1 then
    (SERIAL_ERROR, [Op.write command])
  else
    (0, [Op.write command])

/-! ### Helper lemmas and concrete channels used by witnesses -/

/-- The command buffer assembled by `smcSetTargetSpeed`, expressed through
`%` and `/`: direction byte, lowest 5 bits of the magnitude, next 7 bits. -/
def setSpeedCmd (speed : Int) : List Nat :=
  [if speed < 0 then 0x86 else 0x85, speed.natAbs % 32, speed.natAbs / 32 % 128]

theorem land_31_eq_mod (n : Nat) : n &&& 31 = n % 32 :=
  Nat.and_pow_two_sub_one_eq_mod n 5

theorem land_127_eq_mod (n : Nat) : n &&& 127 = n % 128 :=
  Nat.and_pow_two_sub_one_eq_mod n 7

theorem shiftRight_5_eq_div (n : Nat) : n >>> 5 = n / 32 :=
  Nat.shiftRight_eq_div_pow n 5

theorem smcSetTargetSpeed_eq (ch : Chan) (speed : Int) :
    smcSetTargetSpeed ch speed =
      (if ch.writeRet (setSpeedCmd speed) = -1 then SERIAL_ERROR else 0,
       [Op.write (setSpeedCmd speed)]) := by
  by_cases h : speed < 0
  · have hm : (-speed).toNat = speed.natAbs := by omega
    simp only [smcSetTargetSpeed, setSpeedCmd, h, if_true, if_pos, hm, land_31_eq_mod,
      land_127_eq_mod, shiftRight_5_eq_div]
    split <;> rfl
  · have hm : speed.toNat = speed.natAbs := by omega
    simp only [smcSetTargetSpeed, setSpeedCmd, h, if_false, ite_false, hm, land_31_eq_mod,
      land_127_eq_mod, shiftRight_5_eq_div]
    split <;> rfl

/-- A channel whose `write` reports a partial completion (1 of the bytes
requested) and whose `read` then delivers the two bytes 7 and 0. -/
def partialWriteChan : Chan where
  writeRet := fun _ => 1
  readRet := fun _ => (2, [7, 0])

/-- A channel whose `write` signals an I/O error (`-1`). -/
def failWriteChan : Chan where
  writeRet := fun _ => -1
  readRet := fun _ => (2, [0, 0])

/-- A channel whose `write` completes with 0 bytes written (no error
signalled) for any request. -/
def zeroWriteChan : Chan where
  writeRet := fun _ => 0
  readRet := fun _ => (2, [0, 0])

/-- A healthy channel answering every 2-byte read with `[0xF1, 0xD8]`,
the little-endian encoding of 55537. -/
def sentinelChan : Chan where
  writeRet := fun bytes => bytes.length
  readRet := fun _ => (2, [0xF1, 0xD8])

/-- A healthy channel answering every 2-byte read with `[0x34, 0x12]`. -/
def leChan : Chan where
  writeRet := fun bytes => bytes.length
  readRet := fun _ => (2, [0x34, 0x12])

/-- A healthy channel answering every 2-byte read with `[0xFF, 0xFF]`. -/
def rawFFFFChan : Chan where
  writeRet := fun bytes => bytes.length
  readRet := fun _ => (2, [0xFF, 0xFF])

/-- A channel whose `write` succeeds in full but whose `read` returns 0
bytes (end of stream). -/
def eofChan : Chan where
  writeRet := fun bytes => bytes.length
  readRet := fun _ => (0, [])

theorem smcGetVariable_writeErr (ch : Chan) (variableId : Nat)
    (h : ch.writeRet [0xA1, variableId] = -1) :
    smcGetVariable ch variableId = (SERIAL_ERROR, [Op.write [0xA1, variableId]]) := by
  simp [smcGetVariable, h]

theorem smcGetVariable_readOk (ch : Chan) (variableId b0 b1 : Nat)
    (hw : ch.writeRet [0xA1, variableId] ≠ -1)
    (hr : ch.readRet 2 = (2, [b0, b1])) :
    smcGetVariable ch variableId =
      ((b0 : Int) + 256 * b1, [Op.write [0xA1, variableId], Op.read 2]) := by
  simp [smcGetVariable, hw, hr]

theorem smcGetVariable_shortRead (ch : Chan) (variableId : Nat)
    (hw : ch.writeRet [0xA1, variableId] ≠ -1)
    (hr : (ch.readRet 2).1 ≠ 2) :
    smcGetVariable ch variableId =
      (SERIAL_ERROR, [Op.write [0xA1, variableId], Op.read 2]) := by
  simp [smcGetVariable, hw, hr]

/-! ### The claims -/

/-- C1: for every speed in the inclusive range [-3200, 3200],
`smcSetTargetSpeed` sends exactly the 3 bytes [direction, low, high], where
the direction byte is 0x86 if the speed is negative and 0x85 otherwise, low
is the lowest 5 bits of the magnitude and high the next 7 bits; in
particular speed 0 sends [0x85, 0x00, 0x00], speed 3200 sends
[0x85, 0x00, 0x64] and speed -3200 sends [0x86, 0x00, 0x64]. -/
theorem C1_setTargetSpeed_wire_bytes (ch : Chan) (speed : Int)
    (hlo : -3200 ≤ speed) (hhi : speed ≤ 3200) :
    (smcSetTargetSpeed ch speed).2 =
      [Op.write [if speed < 0 then 0x86 else 0x85,
                 speed.natAbs % 32, speed.natAbs / 32 % 128]] ∧
    (smcSetTargetSpeed ch 0).2 = [Op.write [0x85, 0x00, 0x00]] ∧
    (smcSetTargetSpeed ch 3200).2 = [Op.write [0x85, 0x00, 0x64]] ∧
    (smcSetTargetSpeed ch (-3200)).2 = [Op.write [0x86, 0x00, 0x64]] := by
  refine ⟨?_, ?_, ?_, ?_⟩ <;> simp [smcSetTargetSpeed_eq, setSpeedCmd]

/-- C1 witness at speed 1 on a concrete channel. -/
theorem C1_setTargetSpeed_wire_bytes_witness :
    (smcSetTargetSpeed leChan 1).2 =
      [Op.write [if (1 : Int) < 0 then 0x86 else 0x85,
                 (1 : Int).natAbs % 32, (1 : Int).natAbs / 32 % 128]] ∧
    (smcSetTargetSpeed leChan 0).2 = [Op.write [0x85, 0x00, 0x00]] ∧
    (smcSetTargetSpeed leChan 3200).2 = [Op.write [0x85, 0x00, 0x64]] ∧
    (smcSetTargetSpeed leChan (-3200)).2 = [Op.write [0x86, 0x00, 0x64]] :=
  C1_setTargetSpeed_wire_bytes leChan 1 (by decide) (by decide)

/-- C2 counterexample: when the write completes partially (returns 1 of the
2 requested bytes), `smcGetVariable` does not return the error outcome and
still performs a read on the channel, so the claim fails as stated. -/
theorem C2_counterexample :
    partialWriteChan.writeRet [0xA1, 0] = 1 ∧
    (smcGetVariable partialWriteChan 0).1 ≠ SERIAL_ERROR ∧
    Op.read 2 ∈ (smcGetVariable partialWriteChan 0).2 := by
  decide

/-- C2 amended: whenever the write call signals an I/O error (returns -1),
`smcGetVariable` returns the error outcome immediately and never attempts a
read; a partial write is not detected. -/
theorem C2_writeError_no_read (ch : Chan) (variableId : Nat)
    (h : ch.writeRet [0xA1, variableId] = -1) :
    (smcGetVariable ch variableId).1 = SERIAL_ERROR ∧
    ∀ n, Op.read n ∉ (smcGetVariable ch variableId).2 := by
  rw [smcGetVariable_writeErr ch variableId h]
  exact ⟨rfl, by simp⟩

/-- C2 witness on a channel whose write signals an error. -/
theorem C2_writeError_no_read_witness :
    (smcGetVariable failWriteChan 0).1 = SERIAL_ERROR ∧
    ∀ n, Op.read n ∉ (smcGetVariable failWriteChan 0).2 :=
  C2_writeError_no_read failWriteChan 0 rfl

/-- C3 counterexample: the sentinel -9999 lies inside the signed 16-bit
range, so the successful exchange answering [0xF1, 0xD8] (value 55537)
makes `smcGetTargetSpeed` return exactly `SERIAL_ERROR`. -/
theorem C3_counterexample :
    sentinelChan.writeRet [0xA1, 20] = 2 ∧
    sentinelChan.readRet 2 = (2, [0xF1, 0xD8]) ∧
    (smcGetTargetSpeed sentinelChan).1 = SERIAL_ERROR := by
  decide

/-- C3 amended: the unsigned result of `smcGetVariable` is never equal to
`SERIAL_ERROR` on a successful exchange, because the sentinel is negative
while successful values are in 0..65535; the distinguishability does not
extend to `smcGetTargetSpeed`. -/
theorem C3_getVariable_error_distinguishable (ch : Chan) (variableId b0 b1 : Nat)
    (hb0 : b0 ≤ 255) (hb1 : b1 ≤ 255)
    (hw : ch.writeRet [0xA1, variableId] = 2)
    (hr : ch.readRet 2 = (2, [b0, b1])) :
    (smcGetVariable ch variableId).1 ≠ SERIAL_ERROR := by
  have hw2 : ch.writeRet [0xA1, variableId] ≠ -1 := by rw [hw]; decide
  rw [smcGetVariable_readOk ch variableId b0 b1 hw2 hr]
  show (b0 : Int) + 256 * b1 ≠ SERIAL_ERROR
  unfold SERIAL_ERROR
  omega

/-- C3 witness on a concrete successful exchange. -/
theorem C3_getVariable_error_distinguishable_witness :
    (smcGetVariable leChan 0).1 ≠ SERIAL_ERROR :=
  C3_getVariable_error_distinguishable leChan 0 0x34 0x12
    (by decide) (by decide) rfl rfl

/-- C4: when the write succeeds and the read yields exactly the two bytes
b0 then b1, `smcGetVariable` returns the little-endian value
b0 + 256 * b1, a number in 0..65535. -/
theorem C4_decode_u16_le (ch : Chan) (variableId b0 b1 : Nat)
    (hb0 : b0 ≤ 255) (hb1 : b1 ≤ 255)
    (hw : ch.writeRet [0xA1, variableId] = 2)
    (hr : ch.readRet 2 = (2, [b0, b1])) :
    (smcGetVariable ch variableId).1 = (b0 : Int) + 256 * b1 ∧
    0 ≤ (smcGetVariable ch variableId).1 ∧
    (smcGetVariable ch variableId).1 ≤ 65535 := by
  have hw2 : ch.writeRet [0xA1, variableId] ≠ -1 := by rw [hw]; decide
  rw [smcGetVariable_readOk ch variableId b0 b1 hw2 hr]
  refine ⟨rfl, ?_, ?_⟩ <;> show _ ≤ _ <;> omega

/-- C4 witness: bytes [0x34, 0x12] decode to 0x1234. -/
theorem C4_decode_u16_le_witness :
    (smcGetVariable leChan 0).1 = (0x34 : Int) + 256 * 0x12 ∧
    0 ≤ (smcGetVariable leChan 0).1 ∧
    (smcGetVariable leChan 0).1 ≤ 65535 :=
  C4_decode_u16_le leChan 0 0x34 0x12 (by decide) (by decide) rfl rfl

/-- C5: when the write succeeds but the read obtains fewer than 2 bytes
(including 0 bytes, or -1 for a read error), `smcGetVariable` returns the
error outcome. -/
theorem C5_short_read_error (ch : Chan) (variableId : Nat)
    (hw : ch.writeRet [0xA1, variableId] = 2)
    (hr : (ch.readRet 2).1 < 2) :
    (smcGetVariable ch variableId).1 = SERIAL_ERROR := by
  have hw2 : ch.writeRet [0xA1, variableId] ≠ -1 := by rw [hw]; decide
  have hr2 : (ch.readRet 2).1 ≠ 2 := by omega
  rw [smcGetVariable_shortRead ch variableId hw2 hr2]

/-- C5 witness on a channel whose read hits end of stream. -/
theorem C5_short_read_error_witness :
    (smcGetVariable eofChan 0).1 = SERIAL_ERROR :=
  C5_short_read_error eofChan 0 rfl (by decide)

theorem smcGetVariable_read2 (ch : Chan) (variableId : Nat)
    (hw : ch.writeRet [0xA1, variableId] ≠ -1)
    (hr : (ch.readRet 2).1 = 2) :
    smcGetVariable ch variableId =
      ((((ch.readRet 2).2.getD 0 0 : Nat) : Int) +
        256 * (((ch.readRet 2).2.getD 1 0 : Nat) : Int),
       [Op.write [0xA1, variableId], Op.read 2]) := by
  simp [smcGetVariable, hw, hr]

theorem smcGetVariable_trace_writeOk (ch : Chan) (variableId : Nat)
    (hw : ch.writeRet [0xA1, variableId] ≠ -1) :
    (smcGetVariable ch variableId).2 = [Op.write [0xA1, variableId], Op.read 2] := by
  by_cases hr : (ch.readRet 2).1 = 2
  · rw [smcGetVariable_read2 ch variableId hw hr]
  · rw [smcGetVariable_shortRead ch variableId hw hr]

theorem smcGetVariable_head (ch : Chan) (variableId : Nat) :
    (smcGetVariable ch variableId).2.head? = some (Op.write [0xA1, variableId]) := by
  by_cases hw : ch.writeRet [0xA1, variableId] = -1
  · rw [smcGetVariable_writeErr ch variableId hw]
    rfl
  · rw [smcGetVariable_trace_writeOk ch variableId hw]
    rfl

theorem smcGetTargetSpeed_fst (ch : Chan) :
    (smcGetTargetSpeed ch).1 =
      if (smcGetVariable ch 20).1 = SERIAL_ERROR then SERIAL_ERROR
      else toSigned16 (smcGetVariable ch 20).1 := rfl

theorem smcGetTargetSpeed_snd (ch : Chan) :
    (smcGetTargetSpeed ch).2 = (smcGetVariable ch 20).2 := rfl

/-- C6: `smcGetTargetSpeed` sends the Get Variable command for id 20; on a
successful exchange it reinterprets the unsigned 16-bit value as a signed
16-bit two's-complement integer, and when `smcGetVariable` yields the error
outcome it propagates `SERIAL_ERROR` unchanged. -/
theorem C6_getTargetSpeed_signed (ch : Chan) :
    (smcGetTargetSpeed ch).2.head? = some (Op.write [0xA1, 20]) ∧
    (∀ b0 b1 : Nat, b0 ≤ 255 → b1 ≤ 255 →
      ch.writeRet [0xA1, 20] = 2 → ch.readRet 2 = (2, [b0, b1]) →
      (smcGetTargetSpeed ch).1 =
        (if b0 + 256 * b1 < 32768 then ((b0 : Int) + 256 * b1)
         else (b0 : Int) + 256 * b1 - 65536)) ∧
    ((smcGetVariable ch 20).1 = SERIAL_ERROR →
      (smcGetTargetSpeed ch).1 = SERIAL_ERROR) := by
  refine ⟨?_, ?_, ?_⟩
  · rw [smcGetTargetSpeed_snd]
    exact smcGetVariable_head ch 20
  · intro b0 b1 hb0 hb1 hw hr
    have hw2 : ch.writeRet [0xA1, 20] ≠ -1 := by rw [hw]; decide
    have h1 : (smcGetVariable ch 20).1 = (b0 : Int) + 256 * b1 := by
      rw [smcGetVariable_readOk ch 20 b0 b1 hw2 hr]
    have hne : (b0 : Int) + 256 * b1 ≠ SERIAL_ERROR := by
      unfold SERIAL_ERROR; omega
    rw [smcGetTargetSpeed_fst, h1, if_neg hne]
    unfold toSigned16
    have hv : ((b0 : Int) + 256 * b1) % 65536 = (b0 : Int) + 256 * b1 :=
      Int.emod_eq_of_lt (by positivity) (by omega)
    rw [hv]
    split_ifs <;> omega
  · intro h
    rw [smcGetTargetSpeed_fst, if_pos h]

/-- C6 witness: raw value 0xFFFF decodes to -1. -/
theorem C6_getTargetSpeed_signed_witness :
    (smcGetTargetSpeed rawFFFFChan).1 = -1 :=
  ((C6_getTargetSpeed_signed rawFFFFChan).2.1 255 255 (by decide) (by decide)
    rfl rfl).trans (by decide)

/-- C7: for every id in 0..255, the only command `smcGetVariable` writes to
the channel is exactly the 2 bytes [0xA1, id]; in particular
`smcGetErrorStatus` writes [0xA1, 0x00]. -/
theorem C7_getVariable_command_bytes (ch : Chan) (variableId : Nat)
    (h : variableId ≤ 255) :
    (smcGetVariable ch variableId).2.head? = some (Op.write [0xA1, variableId]) ∧
    (∀ bs, Op.write bs ∈ (smcGetVariable ch variableId).2 →
      bs = [0xA1, variableId]) ∧
    (smcGetErrorStatus ch).2.head? = some (Op.write [0xA1, 0x00]) := by
  refine ⟨smcGetVariable_head ch variableId, ?_, smcGetVariable_head ch 0⟩
  intro bs hmem
  by_cases hw : ch.writeRet [0xA1, variableId] = -1
  · rw [smcGetVariable_writeErr ch variableId hw] at hmem
    simpa using hmem
  · rw [smcGetVariable_trace_writeOk ch variableId hw] at hmem
    simpa using hmem

/-- C7 witness at id 7 on a concrete channel. -/
theorem C7_getVariable_command_bytes_witness :
    (smcGetVariable leChan 7).2.head? = some (Op.write [0xA1, 7]) ∧
    (∀ bs, Op.write bs ∈ (smcGetVariable leChan 7).2 → bs = [0xA1, 7]) ∧
    (smcGetErrorStatus leChan).2.head? = some (Op.write [0xA1, 0x00]) :=
  C7_getVariable_command_bytes leChan 7 (by decide)

/-- C8 counterexample: a write call that completes with 0 of the 1
requested bytes written does not signal an error, and `smcExitSafeStart`
reports success even though not all bytes were written, so success is not
equivalent to the write having written all bytes. -/
theorem C8_counterexample :
    zeroWriteChan.writeRet [0x83] = 0 ∧
    (smcExitSafeStart zeroWriteChan).1 = 0 := by
  decide

/-- C8 amended: `smcExitSafeStart` writes exactly the single byte 0x83,
performs no read, returns 0 exactly when the write call does not signal an
I/O error (return value is not -1, regardless of the count written), and
returns `SERIAL_ERROR` when the write signals an error. -/
theorem C8_exitSafeStart_spec (ch : Chan) :
    (smcExitSafeStart ch).2 = [Op.write [0x83]] ∧
    (∀ n, Op.read n ∉ (smcExitSafeStart ch).2) ∧
    ((smcExitSafeStart ch).1 = 0 ↔ ch.writeRet [0x83] ≠ -1) ∧
    (ch.writeRet [0x83] = -1 → (smcExitSafeStart ch).1 = SERIAL_ERROR) := by
  have htr : (smcExitSafeStart ch).2 = [Op.write [0x83]] := by
    show (if ch.writeRet [0x83] = -1 then ((SERIAL_ERROR : Int), [Op.write [0x83]])
          else (0, [Op.write [0x83]])).2 = [Op.write [0x83]]
    split <;> rfl
  have hfst : (smcExitSafeStart ch).1 =
      if ch.writeRet [0x83] = -1 then SERIAL_ERROR else 0 := by
    show (if ch.writeRet [0x83] = -1 then ((SERIAL_ERROR : Int), [Op.write [0x83]])
          else (0, [Op.write [0x83]])).1 = _
    split <;> rfl
  refine ⟨htr, ?_, ?_, ?_⟩
  · intro n
    rw [htr]
    simp
  · rw [hfst]
    by_cases hw : ch.writeRet [0x83] = -1
    · rw [if_pos hw]
      unfold SERIAL_ERROR
      simp [hw]
    · simp [hw]
  · intro hw
    rw [hfst, if_pos hw]

/-- C8 witness on a healthy channel. -/
theorem C8_exitSafeStart_spec_witness :
    (smcExitSafeStart leChan).1 = 0 :=
  (C8_exitSafeStart_spec leChan).2.2.1.mpr (by decide)

/-- C9: two speeds with the same direction byte and magnitudes congruent
modulo 4096 produce identical bytes on the channel: the magnitude is
silently truncated to its lowest 12 bits. -/
theorem C9_silent_truncation (ch : Chan) (s t : Int)
    (hsign : s < 0 ↔ t < 0)
    (hmag : s.natAbs % 4096 = t.natAbs % 4096) :
    (smcSetTargetSpeed ch s).2 = (smcSetTargetSpeed ch t).2 := by
  have h1 : s.natAbs % 32 = t.natAbs % 32 := by omega
  have h2 : s.natAbs / 32 % 128 = t.natAbs / 32 % 128 := by omega
  have hcmd : setSpeedCmd s = setSpeedCmd t := by
    unfold setSpeedCmd
    by_cases hs : s < 0
    · rw [if_pos hs, if_pos (hsign.mp hs), h1, h2]
    · rw [if_neg hs, if_neg (fun ht => hs (hsign.mpr ht)), h1, h2]
  rw [smcSetTargetSpeed_eq, smcSetTargetSpeed_eq, hcmd]

/-- C9 witness: speeds 3200 and 7296 = 3200 + 4096 produce the same
bytes. -/
theorem C9_silent_truncation_witness :
    (smcSetTargetSpeed leChan 3200).2 = (smcSetTargetSpeed leChan 7296).2 :=
  C9_silent_truncation leChan 3200 7296 (by decide) (by decide)

/-- C10: for every speed of magnitude at most 4095 (so in particular on all
of [-3200, 3200]) the two payload bytes sent by `smcSetTargetSpeed` satisfy
low + 32 * high = magnitude, so the magnitude is exactly recoverable from
the wire bytes. -/
theorem C10_lossless_encoding (ch : Chan) (speed : Int)
    (h : speed.natAbs ≤ 4095) :
    ∃ dir low high : Nat,
      (smcSetTargetSpeed ch speed).2 = [Op.write [dir, low, high]] ∧
      low + 32 * high = speed.natAbs := by
  refine ⟨if speed < 0 then 0x86 else 0x85, speed.natAbs % 32,
    speed.natAbs / 32 % 128, ?_, by omega⟩
  rw [smcSetTargetSpeed_eq]
  rfl

/-- C10 witness at speed -3200. -/
theorem C10_lossless_encoding_witness :
    ∃ dir low high : Nat,
      (smcSetTargetSpeed leChan (-3200)).2 = [Op.write [dir, low, high]] ∧
      low + 32 * high = (-3200 : Int).natAbs :=
  C10_lossless_encoding leChan (-3200) (by decide)
